import Mathlib

/-!
Verification development for the VisionBooth photobooth core.

The program is embedded shallowly from the Python sources:
* `app.py` — the web variant: the session state machine
  (`process_state_machine`), the per-frame handler that builds the
  `SessionView` (`handle_video_frame`), the photo recorder
  (`handle_save_photo`) and the strip compositor (`create_photo_strip`).
* `gesture_detector.py` — the landmark-based gesture classifier
  (`detect_gesture`).

Machine reals (Python floats for landmark coordinates and wall-clock
time) are modelled as rationals; Python ints as `ℤ`/`ℕ`; Python's
`round` (banker's rounding, half to even) is modelled exactly by
`pyRound`.  The classifier compares square roots of sums of squares
(`math.sqrt` in `GestureDetector.distance`) against constant
thresholds; both sides of every such comparison are nonnegative, and
squaring is strictly monotone on nonnegatives, so the comparisons are
embedded as the equivalent comparisons of squared quantities, keeping
the whole development inside `ℚ`.
-/

namespace VisionBooth

/-- Gesture labels returned by `GestureDetector.detect_gesture`
(`gesture_detector.py`, the strings "One Finger" … "Fist"). -/
inductive Gesture where
  | oneFinger
  | peaceSign
  | threeFingers
  | fourFingers
  | openPalm
  | thumbsUp
  | fist
deriving DecidableEq, Repr

/-- The state names stored in `current_state['state']` in `app.py`. -/
inductive St where
  | PROMPT_TIMER
  | DETECTING_FINGERS
  | TIMER_SET
  | AWAIT_THUMBS_UP
  | COUNTDOWN
  | CAPTURE_DONE
  | STRIP_GENERATING
deriving DecidableEq, Repr

/-- The mutable session dictionary `current_state` of `app.py`
(lines 46–58).  `timer_value` is a Python int (`Option ℤ`),
`countdown_end` a Python float (`Option ℚ`); the remaining fields
mirror the dictionary keys one for one. -/
structure CState where
  state : St
  timer_value : Option ℤ
  countdown_end : Option ℚ
  detected_gesture : Option Gesture
  last_count : Option ℕ
  count_streak : ℕ
  thumb_up_streak : ℕ
  fist_streak : ℕ
  capture_count : ℕ
  captured_images : List String
  strip_filename : Option String
deriving DecidableEq, Repr

/-- Source `CONSECUTIVE_REQUIRED = 5` (app.py line 61). -/
def CONSECUTIVE_REQUIRED : ℕ := 5

/-- Source `PHOTOS_PER_STRIP = 4` (app.py line 62). -/
def PHOTOS_PER_STRIP : ℕ := 4

/-- Source `reset_to_prompt()` (app.py lines 249–264): replaces the session
dictionary wholesale with its initial value. -/
def reset_to_prompt : CState :=
  { state := St.PROMPT_TIMER
    timer_value := none
    countdown_end := none
    detected_gesture := none
    last_count := none
    count_streak := 0
    thumb_up_streak := 0
    fist_streak := 0
    capture_count := 0
    captured_images := []
    strip_filename := none }

/-- The `finger_count_map` dictionary of `process_state_machine`
(app.py lines 174–180). -/
def finger_count_map : Gesture → Option ℕ
  | Gesture.oneFinger => some 1
  | Gesture.peaceSign => some 2
  | Gesture.threeFingers => some 3
  | Gesture.fourFingers => some 4
  | Gesture.openPalm => some 5
  | _ => none

/-- Python 3 `round` to an integer: round half to even. -/
def pyRound (q : ℚ) : ℤ :=
  if q - ⌊q⌋ < 1/2 then ⌊q⌋
  else if 1/2 < q - ⌊q⌋ then ⌊q⌋ + 1
  else if ⌊q⌋ % 2 = 0 then ⌊q⌋ else ⌊q⌋ + 1

/-- Source `get_countdown()` (app.py lines 266–271).  The Python guard
`current_state['countdown_end']` is a truthiness test: it fails for
`None` and also for the float `0.0`, hence the `d ≠ 0` condition. -/
def get_countdown (s : CState) (now : ℚ) : Option ℤ :=
  match s.state, s.countdown_end with
  | St.COUNTDOWN, some d => if d ≠ 0 then some (max 0 (pyRound (d - now))) else none
  | _, _ => none

/-- Source `process_state_machine(gesture_name)` (app.py lines 166–247), with
the wall clock `time.time()` passed in explicitly as `now`.
`detected_count` is the dictionary lookup of line 182 (its Python
truthiness test additionally excludes a zero count, which the map
never produces); `thumb_up` and `fist_detected` are the string
comparisons of lines 183–184. -/
def process_state_machine (g : Option Gesture) (now : ℚ) (s : CState) : CState :=
  let detected_count : Option ℕ := g.bind finger_count_map
  let thumb_up : Prop := g = some Gesture.thumbsUp
  let fist_detected : Prop := g = some Gesture.fist
  match s.state with
  | St.PROMPT_TIMER =>
    match detected_count with
    | some c =>
      if c ≠ 0 ∧ 1 ≤ c ∧ c ≤ 5 then
        { s with state := St.DETECTING_FINGERS, last_count := some c, count_streak := 1 }
      else s
    | none => s
  | St.DETECTING_FINGERS =>
    match detected_count with
    | some c =>
      if c ≠ 0 then
        if some c = s.last_count ∧ 1 ≤ c ∧ c ≤ 5 then
          if CONSECUTIVE_REQUIRED ≤ s.count_streak + 1 then
            { s with count_streak := 0, timer_value := some (c : ℤ), state := St.TIMER_SET }
          else { s with count_streak := s.count_streak + 1 }
        else { s with count_streak := 1, last_count := some c }
      else { s with state := St.PROMPT_TIMER, last_count := none, count_streak := 0 }
    | none => { s with state := St.PROMPT_TIMER, last_count := none, count_streak := 0 }
  | St.TIMER_SET =>
    { s with state := St.AWAIT_THUMBS_UP, thumb_up_streak := 0, fist_streak := 0 }
  | St.AWAIT_THUMBS_UP =>
    if thumb_up then
      if CONSECUTIVE_REQUIRED ≤ s.thumb_up_streak + 1 then
        match s.timer_value with
        | some t =>
          { s with thumb_up_streak := s.thumb_up_streak + 1, fist_streak := 0,
                   countdown_end := some (now + (t : ℚ)), state := St.COUNTDOWN }
        | none =>
          -- `current_time + None` would raise a TypeError in Python; the
          -- except-handler of the caller would then drop the frame.  The
          -- branch is unreachable because timer_value is always set when
          -- AWAIT_THUMBS_UP is entered; we leave the state unchanged.
          { s with thumb_up_streak := s.thumb_up_streak + 1, fist_streak := 0 }
      else { s with thumb_up_streak := s.thumb_up_streak + 1, fist_streak := 0 }
    else if fist_detected then
      if CONSECUTIVE_REQUIRED ≤ s.fist_streak + 1 then reset_to_prompt
      else { s with fist_streak := s.fist_streak + 1, thumb_up_streak := 0 }
    else { s with thumb_up_streak := 0, fist_streak := 0 }
  | St.COUNTDOWN =>
    match get_countdown s now with
    | some r => if r ≤ 0 then { s with state := St.CAPTURE_DONE } else s
    | none => s
  | St.CAPTURE_DONE => s
  | St.STRIP_GENERATING => s

/-- One frame tick of `handle_video_frame` (app.py lines 124–126): the
handler stores the detected gesture and then runs the state machine. -/
def advance (g : Option Gesture) (now : ℚ) (s : CState) : CState :=
  process_state_machine g now { s with detected_gesture := g }

/-- The `trigger_capture` field of the `state_update` payload
(app.py line 145), computed after `process_state_machine` has run. -/
def trigger_capture (s : CState) : Bool := s.state = St.CAPTURE_DONE

/-- Fold a list of `(gesture, time)` frames through `advance`. -/
def advances (frames : List (Option Gesture × ℚ)) (s : CState) : CState :=
  frames.foldl (fun st p => advance p.1 p.2 st) s

/-- Outcomes of `handle_save_photo` (app.py lines 284–375), named
after the spec's error taxonomy: the quota early-return of line 293
is `AlreadyComplete`, the missing-image early-return of line 304 is
`NoImage`, the strip branch reports whether `create_photo_strip`
returned a filename, and the defensive `timer_value` check of
line 352 is `CorruptState`. -/
inductive SaveOutcome where
  | AlreadyComplete
  | NoImage
  | Saved
  | StripDone
  | StripFailed
  | CorruptState
deriving DecidableEq, Repr

/-- Source `handle_save_photo(data)` (app.py lines 284–375).  `img` is
`data['image']` (`none` when the key is missing, `some ""` when it is
empty — both fail the Python truthiness check of line 304).  The
compositor's result for the completed set is passed in as
`stripResult` since it depends on image decoding, which is modelled
separately (`create_photo_strip` below); `now` is the wall clock when
the next countdown is armed (line 363).  In the strip branch the
handler stores the filename, emits, sleeps, and then calls
`reset_to_prompt()` in every case, so the session dictionary it
leaves behind is the initial one. -/
def handle_save_photo (stripResult : Option String) (img : Option String) (now : ℚ)
    (s : CState) : CState × SaveOutcome :=
  if PHOTOS_PER_STRIP ≤ s.capture_count then
    (s, SaveOutcome.AlreadyComplete)
  else
    match img with
    | none => (s, SaveOutcome.NoImage)
    | some d =>
      if d = "" then (s, SaveOutcome.NoImage)
      else
        let s1 := { s with captured_images := s.captured_images ++ [d],
                           capture_count := s.capture_count + 1 }
        if PHOTOS_PER_STRIP ≤ s1.capture_count then
          match stripResult with
          | some _ => (reset_to_prompt, SaveOutcome.StripDone)
          | none => (reset_to_prompt, SaveOutcome.StripFailed)
        else
          match s1.timer_value with
          | none => (reset_to_prompt, SaveOutcome.CorruptState)
          | some t =>
            if t ≤ 0 then (reset_to_prompt, SaveOutcome.CorruptState)
            else
              ({ s1 with countdown_end := some (now + (t : ℚ)), state := St.COUNTDOWN },
               SaveOutcome.Saved)

/-- Decoded image, `PIL.Image`: only the pixel dimensions matter for
the layout claims. -/
structure Img where
  w : ℕ
  h : ℕ
deriving DecidableEq, Repr

/-- One `strip.paste(photo, (x, y))` of a photo that was produced by
`photo.resize((pw, ph), LANCZOS)` (app.py lines 403–409).  PIL's
`Image.resize` resamples from a source box that defaults to the whole
image, so the box is recorded explicitly: `(box_l, box_t, box_r,
box_b)` is the region of the decoded source image whose pixels are
mapped onto the `pw × ph` target. -/
structure Paste where
  x : ℕ
  y : ℕ
  pw : ℕ
  ph : ℕ
  box_l : ℚ
  box_t : ℚ
  box_r : ℚ
  box_b : ℚ
deriving DecidableEq, Repr

/-- The composed strip canvas: `Image.new('RGB', (strip_width,
strip_height), FRAME_COLOR)` plus the sequence of pastes. -/
structure Strip where
  width : ℕ
  height : ℕ
  pastes : List Paste
deriving DecidableEq, Repr

/-- Source `PHOTO_WIDTH = 800` (app.py line 381). -/
def PHOTO_WIDTH : ℕ := 800

/-- Source `PHOTO_HEIGHT = 600` (app.py line 382). -/
def PHOTO_HEIGHT : ℕ := 600

/-- Source `BORDER_SIZE = 20` (app.py line 383). -/
def BORDER_SIZE : ℕ := 20

/-- Source `strip_width` (app.py line 387). -/
def strip_width : ℕ := PHOTO_WIDTH + BORDER_SIZE * 2

/-- Source `strip_height` (app.py line 388). -/
def strip_height : ℕ := PHOTO_HEIGHT * PHOTOS_PER_STRIP + BORDER_SIZE * (PHOTOS_PER_STRIP + 1)

/-- The processing of one captured image inside the paste loop of
`create_photo_strip` (app.py lines 394–409): the decoded photo is
resized to `(PHOTO_WIDTH, PHOTO_HEIGHT)` with `Image.Resampling.LANCZOS`
— PIL resamples from the whole source image, i.e. from the box
`(0, 0, w, h)`; no crop is applied — and pasted at
`(BORDER_SIZE, BORDER_SIZE + idx * (PHOTO_HEIGHT + BORDER_SIZE))`. -/
def paste_photo (idx : ℕ) (img : Img) : Paste :=
  { x := BORDER_SIZE
    y := BORDER_SIZE + idx * (PHOTO_HEIGHT + BORDER_SIZE)
    pw := PHOTO_WIDTH
    ph := PHOTO_HEIGHT
    box_l := 0
    box_t := 0
    box_r := (img.w : ℚ)
    box_b := (img.h : ℚ) }

/-- Source `create_photo_strip(images, session_dir)` (app.py lines 377–451).
Each element of `images` is a decode attempt on one stored base64
image: `none` when `base64.b64decode`/`Image.open` raises.  The whole
body runs under `try`: the first decode failure aborts the loop, the
except-handler returns `None`, and since `strip.save` only runs after
the loop, no file has been written at that point.  On success the
strip is saved once; the write is returned as the second component
(`filename` stands for the timestamp-derived name of line 433).
There is no check anywhere that `len(images) == PHOTOS_PER_STRIP`. -/
def create_photo_strip (images : List (Option Img)) (session_dir filename : String) :
    Option String × List (String × Strip) :=
  if images.all Option.isSome then
    let strip : Strip :=
      { width := strip_width
        height := strip_height
        pastes := (images.filterMap id).enum.map fun p => paste_photo p.1 p.2 }
    (some (session_dir ++ "/" ++ filename), [(session_dir ++ "/" ++ filename, strip)])
  else
    (none, [])

/-- Modelled from the spec (§4.3 step 4, a step absent from the
code): the centered crop box that adapts an input image to the slot's
aspect ratio before resampling — an image wider than the slot aspect
is cropped symmetrically on the horizontal axis only, a taller one on
the vertical axis only. -/
def spec_center_crop_box (img : Img) : ℚ × ℚ × ℚ × ℚ :=
  if (PHOTO_HEIGHT : ℚ) * img.w > (PHOTO_WIDTH : ℚ) * img.h then
    let cw : ℚ := (PHOTO_WIDTH : ℚ) * img.h / PHOTO_HEIGHT
    (((img.w : ℚ) - cw) / 2, 0, ((img.w : ℚ) + cw) / 2, (img.h : ℚ))
  else if (PHOTO_HEIGHT : ℚ) * img.w < (PHOTO_WIDTH : ℚ) * img.h then
    let ch : ℚ := (PHOTO_HEIGHT : ℚ) * img.w / PHOTO_WIDTH
    (0, ((img.h : ℚ) - ch) / 2, (img.w : ℚ), ((img.h : ℚ) + ch) / 2)
  else
    (0, 0, (img.w : ℚ), (img.h : ℚ))

/-- A landmark: one of MediaPipe's 21 hand keypoints, a 3D point. -/
structure Pt where
  x : ℚ
  y : ℚ
  z : ℚ
deriving DecidableEq, Repr

/-- Squared Euclidean distance.  `GestureDetector.distance`
(gesture_detector.py lines 20–22) is the square root of this; the
classifier only ever compares such distances (divided by a
nonnegative reference) against nonnegative thresholds, and those
comparisons are embedded below squared. -/
def dist_sq (p q : Pt) : ℚ :=
  (p.x - q.x) * (p.x - q.x) + (p.y - q.y) * (p.y - q.y) + (p.z - q.z) * (p.z - q.z)

/-- The landmarks read out of the 21-point hand by `detect_gesture`
(gesture_detector.py lines 55–78): index `0` is `wrist`, `4/3/2/1`
the thumb chain, `8/6/5`, `12/10/9`, `16/14/13`, `20/18/17` the
tip/pip/mcp triples of index, middle, ring and pinky. -/
structure Hand where
  wrist : Pt
  thumb_tip : Pt
  thumb_ip : Pt
  thumb_mcp : Pt
  thumb_cmc : Pt
  index_tip : Pt
  index_pip : Pt
  index_mcp : Pt
  middle_tip : Pt
  middle_pip : Pt
  middle_mcp : Pt
  ring_tip : Pt
  ring_pip : Pt
  ring_mcp : Pt
  pinky_tip : Pt
  pinky_pip : Pt
  pinky_mcp : Pt
deriving DecidableEq, Repr

/-- Source `hand_size = self.distance(wrist, middle_mcp)`
(gesture_detector.py line 84), squared. -/
def hand_size_sq (h : Hand) : ℚ := dist_sq h.wrist h.middle_mcp

/-- The source computes `ratio = dist / hand_size if hand_size > 0
else 0` and then tests `ratio > t`.  For `t ≥ 0`, `hand_size > 0` and
`dist ≥ 0` this is equivalent to `dist_sq > t² · hand_size_sq` (and
`hand_size > 0` to `hand_size_sq > 0`), which is what is embedded;
when `hand_size` is zero the ratio is literally `0` and the test is
`0 > t`. -/
def ratio_gt (dsq hsq t : ℚ) : Prop :=
  if 0 < hsq then t * t * hsq < dsq else t < 0

/-- Squared embedding of `ratio < t` (used by the fist test), same
conventions as `ratio_gt`. -/
def ratio_lt (dsq hsq t : ℚ) : Prop :=
  if 0 < hsq then dsq < t * t * hsq else 0 < t

instance (dsq hsq t : ℚ) : Decidable (ratio_gt dsq hsq t) := by
  unfold ratio_gt; infer_instance

instance (dsq hsq t : ℚ) : Decidable (ratio_lt dsq hsq t) := by
  unfold ratio_lt; infer_instance

/-- Source `index_extended` (gesture_detector.py line 102):
`(index_pip.y - index_tip.y) > 0.02 and index_ratio > 0.6`. -/
def index_extended (h : Hand) : Prop :=
  h.index_pip.y - h.index_tip.y > 0.02 ∧
    ratio_gt (dist_sq h.index_tip h.index_mcp) (hand_size_sq h) 0.6

/-- Source `middle_extended` (gesture_detector.py line 103). -/
def middle_extended (h : Hand) : Prop :=
  h.middle_pip.y - h.middle_tip.y > 0.02 ∧
    ratio_gt (dist_sq h.middle_tip h.middle_mcp) (hand_size_sq h) 0.6

/-- Source `ring_extended` (gesture_detector.py line 104). -/
def ring_extended (h : Hand) : Prop :=
  h.ring_pip.y - h.ring_tip.y > 0.02 ∧
    ratio_gt (dist_sq h.ring_tip h.ring_mcp) (hand_size_sq h) 0.6

/-- Source `pinky_extended` (gesture_detector.py line 105). -/
def pinky_extended (h : Hand) : Prop :=
  h.pinky_pip.y - h.pinky_tip.y > 0.02 ∧
    ratio_gt (dist_sq h.pinky_tip h.pinky_mcp) (hand_size_sq h) 0.6

/-- Source `thumb_to_index_dist = self.distance(thumb_tip, index_mcp)`
(gesture_detector.py line 108), squared. -/
def thumb_to_index_sq (h : Hand) : ℚ := dist_sq h.thumb_tip h.index_mcp

/-- Source `thumb_extended = thumb_ratio_to_index > 0.7`
(gesture_detector.py line 110). -/
def thumb_extended (h : Hand) : Prop :=
  ratio_gt (thumb_to_index_sq h) (hand_size_sq h) 0.7

/-- Source `thumb_pointing_up = (thumb_mcp.y - thumb_tip.y) > 0.08`
(gesture_detector.py line 118). -/
def thumb_pointing_up (h : Hand) : Prop :=
  h.thumb_mcp.y - h.thumb_tip.y > 0.08

/-- Source `is_thumbs_up` (gesture_detector.py lines 119–126). -/
def is_thumbs_up (h : Hand) : Prop :=
  thumb_extended h ∧ thumb_pointing_up h ∧
    ¬index_extended h ∧ ¬middle_extended h ∧ ¬ring_extended h ∧ ¬pinky_extended h

/-- Source `is_fist` (gesture_detector.py lines 131–137): all four fingers
curled and `thumb_ratio_to_index < 0.7`. -/
def is_fist (h : Hand) : Prop :=
  ¬index_extended h ∧ ¬middle_extended h ∧ ¬ring_extended h ∧ ¬pinky_extended h ∧
    ratio_lt (thumb_to_index_sq h) (hand_size_sq h) 0.7

instance (h : Hand) : Decidable (index_extended h) := by unfold index_extended; infer_instance

instance (h : Hand) : Decidable (middle_extended h) := by unfold middle_extended; infer_instance

instance (h : Hand) : Decidable (ring_extended h) := by unfold ring_extended; infer_instance

instance (h : Hand) : Decidable (pinky_extended h) := by unfold pinky_extended; infer_instance

instance (h : Hand) : Decidable (thumb_extended h) := by unfold thumb_extended; infer_instance

instance (h : Hand) : Decidable (thumb_pointing_up h) := by
  unfold thumb_pointing_up; infer_instance

instance (h : Hand) : Decidable (is_thumbs_up h) := by unfold is_thumbs_up; infer_instance

instance (h : Hand) : Decidable (is_fist h) := by unfold is_fist; infer_instance

/-- Source `finger_count = sum(fingers_up)` (gesture_detector.py
lines 140–141): the number of extended non-thumb fingers. -/
def finger_count (h : Hand) : ℕ :=
  (if index_extended h then 1 else 0) + (if middle_extended h then 1 else 0) +
    (if ring_extended h then 1 else 0) + (if pinky_extended h then 1 else 0)

/-- The gesture decision chain of `detect_gesture`
(gesture_detector.py lines 143–182), in source order: fist, thumbs
up, one/two/three fingers, four fingers, open palm, and the lenient
open-palm fallback that re-tests `thumb_ratio_to_index > 0.7`
directly (line 181). -/
def detect_gesture (h : Hand) : Option Gesture :=
  if is_fist h then some Gesture.fist
  else if is_thumbs_up h then some Gesture.thumbsUp
  else if index_extended h ∧ ¬middle_extended h ∧ ¬ring_extended h ∧ ¬pinky_extended h then
    some Gesture.oneFinger
  else if index_extended h ∧ middle_extended h ∧ ¬ring_extended h ∧ ¬pinky_extended h then
    some Gesture.peaceSign
  else if index_extended h ∧ middle_extended h ∧ ring_extended h ∧ ¬pinky_extended h then
    some Gesture.threeFingers
  else if finger_count h = 4 ∧ ¬thumb_extended h then some Gesture.fourFingers
  else if finger_count h = 4 ∧ thumb_extended h then some Gesture.openPalm
  else if finger_count h = 4 ∧ ratio_gt (thumb_to_index_sq h) (hand_size_sq h) 0.7 then
    some Gesture.openPalm
  else none

/-- The decision chain of `detect_gesture` with the lenient
open-palm fallback branch (gesture_detector.py lines 181–182)
removed; used to state that the fallback is dead code. -/
def detect_gesture_no_fallback (h : Hand) : Option Gesture :=
  if is_fist h then some Gesture.fist
  else if is_thumbs_up h then some Gesture.thumbsUp
  else if index_extended h ∧ ¬middle_extended h ∧ ¬ring_extended h ∧ ¬pinky_extended h then
    some Gesture.oneFinger
  else if index_extended h ∧ middle_extended h ∧ ¬ring_extended h ∧ ¬pinky_extended h then
    some Gesture.peaceSign
  else if index_extended h ∧ middle_extended h ∧ ring_extended h ∧ ¬pinky_extended h then
    some Gesture.threeFingers
  else if finger_count h = 4 ∧ ¬thumb_extended h then some Gesture.fourFingers
  else if finger_count h = 4 ∧ thumb_extended h then some Gesture.openPalm
  else none

/-- Helper: `pyRound` agrees with the floor when the fractional part
is below one half. -/
lemma pyRound_eq_of_lt_half (q : ℚ) (z : ℤ) (h1 : (z : ℚ) ≤ q) (h2 : q - z < 1/2) :
    pyRound q = z := by
  have hfl : ⌊q⌋ = z := Int.floor_eq_iff.mpr ⟨h1, by linarith⟩
  unfold pyRound
  rw [hfl, if_pos (by linarith)]

/-- The frames of a concrete session: five "One Finger" frames set the
timer to 1, a gestureless frame moves TIMER_SET on to AWAIT_THUMBS_UP,
and four "Thumbs Up" frames at time 9 build the confirmation streak. -/
def frames_before_start : List (Option Gesture × ℚ) :=
  List.replicate 5 (some Gesture.oneFinger, 0) ++ [(none, 0)] ++
    List.replicate 4 (some Gesture.thumbsUp, 9)

/-- The session state reached by `frames_before_start`: awaiting
confirmation with a streak of 4. -/
def sAwait4 : CState :=
  { state := St.AWAIT_THUMBS_UP
    timer_value := some 1
    countdown_end := none
    detected_gesture := some Gesture.thumbsUp
    last_count := some 1
    count_streak := 0
    thumb_up_streak := 4
    fist_streak := 0
    capture_count := 0
    captured_images := []
    strip_filename := none }

/-- The session state after the fifth "Thumbs Up" at time 9 with a
1-second timer: counting down towards deadline 10. -/
def sCountdown : CState :=
  { state := St.COUNTDOWN
    timer_value := some 1
    countdown_end := some 10
    detected_gesture := some Gesture.thumbsUp
    last_count := some 1
    count_streak := 0
    thumb_up_streak := 5
    fist_streak := 0
    capture_count := 0
    captured_images := []
    strip_filename := none }

/-- The session state after the countdown expires at time 10. -/
def sCapture : CState :=
  { state := St.CAPTURE_DONE
    timer_value := some 1
    countdown_end := some 10
    detected_gesture := none
    last_count := some 1
    count_streak := 0
    thumb_up_streak := 5
    fist_streak := 0
    capture_count := 0
    captured_images := []
    strip_filename := none }

lemma advances_before_start : advances frames_before_start reset_to_prompt = sAwait4 := by
  decide

lemma advance_fifth_thumb : advance (some Gesture.thumbsUp) 9 sAwait4 = sCountdown := by
  norm_num [advance, process_state_machine, sAwait4, sCountdown, Option.bind,
    finger_count_map, CONSECUTIVE_REQUIRED]

/-- Helper: the COUNTDOWN branch fires whenever the stored deadline is
present, nonzero, and `round(deadline - now)` is at most zero. -/
lemma advance_countdown_fire (g : Option Gesture) (now : ℚ) (s : CState) (d : ℚ)
    (hst : s.state = St.COUNTDOWN) (hce : s.countdown_end = some d) (hd : d ≠ 0)
    (hr : pyRound (d - now) ≤ 0) :
    advance g now s = { s with state := St.CAPTURE_DONE, detected_gesture := g } := by
  obtain ⟨st, tv, ce, dg, lc, cs, ts, fs, cc, ci, sf⟩ := s
  have hst' : st = St.COUNTDOWN := hst
  subst hst'
  have hce' : ce = some d := hce
  subst hce'
  have hmax : max 0 (pyRound (d - now)) ≤ 0 := by omega
  simp [advance, process_state_machine, get_countdown, hd, hmax]

lemma advance_deadline : advance none 10 sCountdown = sCapture := by
  have h0 : pyRound ((10 : ℚ) - 10) = 0 := by
    rw [show ((10 : ℚ) - 10) = 0 by norm_num]
    exact pyRound_eq_of_lt_half 0 0 (by norm_num) (by norm_num)
  rw [advance_countdown_fire none 10 sCountdown 10 rfl rfl (by norm_num) (le_of_eq h0)]
  rfl

/-- C1 counterexample run: the full frame list up to and including the
tick on which the countdown expires. -/
def c1_frames : List (Option Gesture × ℚ) :=
  frames_before_start ++ [(some Gesture.thumbsUp, 9), (none, 10)]

/-- C1: the claim says the flag is reported true on at most one
consecutive tick per capture and that subsequent `advance` calls while
the phase remains CAPTURE_DONE report it false.  In the code the flag
is recomputed every tick as `state == 'CAPTURE_DONE'` and the
CAPTURE_DONE branch of the state machine is a `pass`, so a reachable
run reports it true on two consecutive ticks: the tick that enters
CAPTURE_DONE and the following gestureless tick. -/
theorem C1_counterexample :
    advances c1_frames reset_to_prompt = sCapture ∧
    trigger_capture sCapture = true ∧
    (advance none 11 sCapture).state = St.CAPTURE_DONE ∧
    trigger_capture (advance none 11 sCapture) = true := by
  refine ⟨?_, rfl, rfl, rfl⟩
  have h1 : advances c1_frames reset_to_prompt =
      advance none 10 (advance (some Gesture.thumbsUp) 9
        (advances frames_before_start reset_to_prompt)) := by
    unfold c1_frames advances
    rw [List.foldl_append]
    rfl
  rw [h1, advances_before_start, advance_fifth_thumb, advance_deadline]

/-- C1 (amended): the `trigger_capture` flag of the view emitted by
`handle_video_frame` is true exactly when the phase after the tick is
CAPTURE_DONE; since the CAPTURE_DONE branch of the state machine makes
no transition, the flag stays true on every subsequent tick until
`handle_save_photo` or a reset changes the phase. -/
theorem trigger_capture_iff_capture_done (g : Option Gesture) (now : ℚ) (s : CState) :
    (trigger_capture (advance g now s) = true ↔ (advance g now s).state = St.CAPTURE_DONE) ∧
    (s.state = St.CAPTURE_DONE → advance g now s = { s with detected_gesture := g }) := by
  obtain ⟨st, tv, ce, dg, lc, cs, ts, fs, cc, ci, sf⟩ := s
  constructor
  · simp [trigger_capture]
  · intro hst
    have : st = St.CAPTURE_DONE := hst
    subst this
    rfl

/-- C1 witness: the amended theorem applied to a concrete
CAPTURE_DONE state. -/
theorem trigger_capture_iff_capture_done_witness :
    advance none 11 sCapture = { sCapture with detected_gesture := none } ∧
    trigger_capture (advance none 11 sCapture) = true := by
  constructor
  · exact (trigger_capture_iff_capture_done none 11 sCapture).2 rfl
  · rw [(trigger_capture_iff_capture_done none 11 sCapture).2 rfl]
    rfl

/-- C2 counterexample: in a reachable mid-countdown state with
deadline 10, a tick at time 9.7 — strictly before the deadline —
already transitions to CAPTURE_DONE (because the code tests
`max(0, round(deadline - now)) <= 0`, which fires up to half a second
early), and the deadline is not cleared by the transition. -/
theorem C2_counterexample :
    advances (frames_before_start ++ [(some Gesture.thumbsUp, 9)]) reset_to_prompt
        = sCountdown ∧
    sCountdown.state = St.COUNTDOWN ∧
    sCountdown.countdown_end = some 10 ∧
    (97/10 : ℚ) < 10 ∧
    (advance none (97/10) sCountdown).state = St.CAPTURE_DONE ∧
    (advance none (97/10) sCountdown).countdown_end = some 10 := by
  have hrun : advances (frames_before_start ++ [(some Gesture.thumbsUp, 9)]) reset_to_prompt
      = sCountdown := by
    unfold advances
    rw [List.foldl_append]
    have := advances_before_start
    unfold advances at this
    rw [this]
    exact advance_fifth_thumb
  have hr : pyRound ((10 : ℚ) - 97/10) = 0 := by
    rw [show ((10 : ℚ) - 97/10) = 3/10 by norm_num]
    exact pyRound_eq_of_lt_half (3/10) 0 (by norm_num) (by norm_num)
  have hstep : advance none (97/10) sCountdown =
      { sCountdown with state := St.CAPTURE_DONE, detected_gesture := none } :=
    advance_countdown_fire none (97/10) sCountdown 10 rfl rfl (by norm_num) (le_of_eq hr)
  refine ⟨hrun, rfl, rfl, by norm_num, ?_, ?_⟩
  · rw [hstep]
  · rw [hstep]
    rfl

/-- C2 (amended): in phase COUNTDOWN, `advance` transitions to
CAPTURE_DONE exactly when the stored deadline is present and nonzero
and `round(deadline - now)` is at most zero — a condition satisfied
already half a second before the deadline, not exactly at
`now >= countdown_deadline` — and the transition does not clear
`countdown_end`, which therefore stays set into CAPTURE_DONE. -/
theorem countdown_transition (g : Option Gesture) (now : ℚ) (s : CState)
    (hst : s.state = St.COUNTDOWN) :
    ((advance g now s).state = St.CAPTURE_DONE ↔
        ∃ d, s.countdown_end = some d ∧ d ≠ 0 ∧ pyRound (d - now) ≤ 0) ∧
    (advance g now s).countdown_end = s.countdown_end := by
  obtain ⟨st, tv, ce, dg, lc, cs, ts, fs, cc, ci, sf⟩ := s
  have hst' : st = St.COUNTDOWN := hst
  subst hst'
  cases ce with
  | none =>
    constructor
    · simp [advance, process_state_machine, get_countdown]
    · rfl
  | some d =>
    by_cases hd : d = 0
    · subst hd
      constructor
      · simp [advance, process_state_machine, get_countdown]
      · rfl
    · constructor
      · by_cases hr : pyRound (d - now) ≤ 0
        · have : max 0 (pyRound (d - now)) ≤ 0 := by omega
          simp [advance, process_state_machine, get_countdown, hd, this]
          exact hr
        · have : ¬ max 0 (pyRound (d - now)) ≤ 0 := by omega
          simp [advance, process_state_machine, get_countdown, hd, this]
          omega
      · by_cases hr : max 0 (pyRound (d - now)) ≤ 0 <;>
          simp [advance, process_state_machine, get_countdown, hd, hr]

/-- C2 witness: the amended theorem applied to the concrete
mid-countdown state, showing the early transition at time 9.7. -/
theorem countdown_transition_witness :
    (advance none (97/10) sCountdown).state = St.CAPTURE_DONE ∧
    (advance none (97/10) sCountdown).countdown_end = some 10 := by
  have h := countdown_transition none (97/10) sCountdown rfl
  constructor
  · refine h.1.mpr ⟨10, rfl, by norm_num, ?_⟩
    have : ((10 : ℚ) - 97/10) = 3/10 := by norm_num
    rw [this, pyRound_eq_of_lt_half (3/10) 0 (by norm_num) (by norm_num)]
  · exact h.2

/-- C4: from the initial state, 4 consecutive "One Finger" frames
(each of which is fed to DETECTING_FINGERS after the first one enters
it) never reach TIMER_SET, while the 5th consecutive identical
gesture transitions to TIMER_SET with `timer_value = 1` and the
streak counter cleared. -/
theorem debounce_one_finger (now : ℚ) (n : ℕ) (hn : n ≤ 4) :
    (advances (List.replicate n (some Gesture.oneFinger, now)) reset_to_prompt).state
        ≠ St.TIMER_SET ∧
    advances (List.replicate 5 (some Gesture.oneFinger, now)) reset_to_prompt =
      { state := St.TIMER_SET
        timer_value := some 1
        countdown_end := none
        detected_gesture := some Gesture.oneFinger
        last_count := some 1
        count_streak := 0
        thumb_up_streak := 0
        fist_streak := 0
        capture_count := 0
        captured_images := []
        strip_filename := none } := by
  constructor
  · interval_cases n <;> exact fun hh => by cases hh
  · rfl

/-- C4 witness: the debounce theorem applied at four and at five
concrete frames. -/
theorem debounce_one_finger_witness :
    (advances (List.replicate 4 (some Gesture.oneFinger, 0)) reset_to_prompt).state
        ≠ St.TIMER_SET ∧
    (advances (List.replicate 5 (some Gesture.oneFinger, 0)) reset_to_prompt).state
        = St.TIMER_SET ∧
    (advances (List.replicate 5 (some Gesture.oneFinger, 0)) reset_to_prompt).timer_value
        = some 1 ∧
    (advances (List.replicate 5 (some Gesture.oneFinger, 0)) reset_to_prompt).count_streak
        = 0 := by
  refine ⟨(debounce_one_finger 0 4 (by decide)).1, ?_, ?_, ?_⟩ <;>
    rw [(debounce_one_finger 0 0 (by decide)).2]

/-- C5: a successful `handle_save_photo` call with the new count
still below the quota resets the whole session when `timer_value` is
missing or not positive (the defensive CorruptState check of
line 352), and otherwise stores the image, arms
`countdown_end = now + timer_value` and transitions to COUNTDOWN. -/
theorem record_capture_mid_sequence (stripRes : Option String) (img : String) (now : ℚ)
    (s : CState) (hq : s.capture_count + 1 < PHOTOS_PER_STRIP) (himg : img ≠ "") :
    (s.timer_value = none →
        handle_save_photo stripRes (some img) now s =
          (reset_to_prompt, SaveOutcome.CorruptState)) ∧
    (∀ t : ℤ, s.timer_value = some t → t ≤ 0 →
        handle_save_photo stripRes (some img) now s =
          (reset_to_prompt, SaveOutcome.CorruptState)) ∧
    (∀ t : ℤ, s.timer_value = some t → 0 < t →
        handle_save_photo stripRes (some img) now s =
          ({ s with captured_images := s.captured_images ++ [img],
                    capture_count := s.capture_count + 1,
                    countdown_end := some (now + (t : ℚ)),
                    state := St.COUNTDOWN }, SaveOutcome.Saved)) := by
  have h1 : ¬ PHOTOS_PER_STRIP ≤ s.capture_count := by omega
  have h2 : ¬ PHOTOS_PER_STRIP ≤ s.capture_count + 1 := by omega
  refine ⟨?_, ?_, ?_⟩
  · intro ht
    simp [handle_save_photo, h1, h2, himg, ht]
  · intro t ht ht0
    simp [handle_save_photo, h1, h2, himg, ht, ht0]
  · intro t ht ht0
    have ht1 : ¬ t ≤ 0 := by omega
    simp [handle_save_photo, h1, h2, himg, ht, ht1]

/-- C5 witness: the mid-sequence theorem applied to a concrete state
holding one photo and a 3-second timer. -/
theorem record_capture_mid_sequence_witness :
    handle_save_photo none (some "img") 0
        { reset_to_prompt with
          state := St.CAPTURE_DONE, timer_value := some 3,
          capture_count := 1, captured_images := ["a"] } =
      ({ reset_to_prompt with
         state := St.COUNTDOWN, timer_value := some 3,
         countdown_end := some ((0 : ℚ) + ((3 : ℤ) : ℚ)), capture_count := 2,
         captured_images := ["a", "img"] }, SaveOutcome.Saved) := by
  rw [(record_capture_mid_sequence none "img" 0
    { reset_to_prompt with
      state := St.CAPTURE_DONE, timer_value := some 3,
      capture_count := 1, captured_images := ["a"] }
    (by decide) (by decide)).2.2 3 rfl (by decide)]
  rfl

/-- C6: once `capture_count` has reached the quota,
`handle_save_photo` is a no-op that reports AlreadyComplete —
`capture_count` and `captured_images` are left unchanged. -/
theorem record_capture_already_complete (stripRes img : Option String) (now : ℚ)
    (s : CState) (h : PHOTOS_PER_STRIP ≤ s.capture_count) :
    handle_save_photo stripRes img now s = (s, SaveOutcome.AlreadyComplete) ∧
    (handle_save_photo stripRes img now s).1.capture_count = s.capture_count ∧
    (handle_save_photo stripRes img now s).1.captured_images = s.captured_images := by
  have he : handle_save_photo stripRes img now s = (s, SaveOutcome.AlreadyComplete) := by
    unfold handle_save_photo
    rw [if_pos h]
  exact ⟨he, by rw [he], by rw [he]⟩

/-- C6 witness: a 5th call with `PHOTOS_PER_STRIP = 4` photos already
captured changes nothing. -/
theorem record_capture_already_complete_witness :
    handle_save_photo none (some "img") 0
        { reset_to_prompt with
          state := St.STRIP_GENERATING, capture_count := 4,
          captured_images := ["a", "b", "c", "d"] } =
      ({ reset_to_prompt with
         state := St.STRIP_GENERATING, capture_count := 4,
         captured_images := ["a", "b", "c", "d"] }, SaveOutcome.AlreadyComplete) :=
  (record_capture_already_complete none (some "img") 0
    { reset_to_prompt with
      state := St.STRIP_GENERATING, capture_count := 4,
      captured_images := ["a", "b", "c", "d"] } (by decide)).1

/-- C7 counterexample: `create_photo_strip` (app.py lines 377–451)
performs no check of `len(images)` against `PHOTOS_PER_STRIP`
anywhere in its body — the loop of line 394 just enumerates whatever
list it was given and `strip.save` at line 436 then runs.  So a call
with 3 decodable images (one too few), and likewise one with 5 (one
too many), still composes, saves exactly one strip file and returns
its filename — with 3 and 5 pasted photos respectively — instead of
rejecting the call with an `InvalidInput` error and producing no
file, as the claim requires. -/
theorem C7_counterexample :
    ((List.replicate 3 (some (Img.mk 400 600))).length ≠ PHOTOS_PER_STRIP ∧
     (create_photo_strip (List.replicate 3 (some (Img.mk 400 600))) "d" "f.png").1
        = some "d/f.png" ∧
     (create_photo_strip (List.replicate 3 (some (Img.mk 400 600))) "d" "f.png").2.length
        = 1 ∧
     ((create_photo_strip (List.replicate 3 (some (Img.mk 400 600))) "d" "f.png").2.map
        fun p => p.2.pastes.length) = [3]) ∧
    ((List.replicate 5 (some (Img.mk 400 600))).length ≠ PHOTOS_PER_STRIP ∧
     (create_photo_strip (List.replicate 5 (some (Img.mk 400 600))) "d" "f.png").1
        = some "d/f.png" ∧
     ((create_photo_strip (List.replicate 5 (some (Img.mk 400 600))) "d" "f.png").2.map
        fun p => p.2.pastes.length) = [5]) := by
  refine ⟨⟨by decide, ?_, ?_, ?_⟩, ⟨by decide, ?_, ?_⟩⟩ <;> rfl

/-- Helper: a list of decode results that are all successful has as
many decoded images as entries. -/
lemma length_filterMap_id (l : List (Option Img)) (h : ∀ i ∈ l, Option.isSome i) :
    (l.filterMap id).length = l.length := by
  induction l with
  | nil => rfl
  | cons a t ih =>
    cases a with
    | none => simpa using h none (by simp)
    | some v =>
      simp only [List.filterMap_cons, id, List.length_cons]
      rw [ih fun i hi => h i (by simp [hi])]

/-- C7 (amended): if any input image fails to decode the compositor
fails (returns no filename) and mutates no external state — the save
only happens after the paste loop, so no partial strip file is
produced; but an input count different from `PHOTOS_PER_STRIP` is not
rejected: whenever all inputs decode, whatever their number, exactly
one strip is composed and saved, holding one pasted photo per
supplied image. -/
theorem compositor_failure_semantics (images : List (Option Img)) (dir fn : String) :
    (none ∈ images → create_photo_strip images dir fn = (none, [])) ∧
    ((∀ i ∈ images, Option.isSome i) →
        create_photo_strip images dir fn =
          (some (dir ++ "/" ++ fn),
           [(dir ++ "/" ++ fn,
             { width := strip_width
               height := strip_height
               pastes := (images.filterMap id).enum.map fun p => paste_photo p.1 p.2 })])) ∧
    ((∀ i ∈ images, Option.isSome i) →
        ((create_photo_strip images dir fn).2.map fun p => p.2.pastes.length) =
          [images.length]) := by
  have hsucc : (∀ i ∈ images, Option.isSome i) →
      create_photo_strip images dir fn =
        (some (dir ++ "/" ++ fn),
         [(dir ++ "/" ++ fn,
           { width := strip_width
             height := strip_height
             pastes := (images.filterMap id).enum.map fun p => paste_photo p.1 p.2 })]) := by
    intro hall
    unfold create_photo_strip
    rw [if_pos (List.all_eq_true.mpr fun i hi => hall i hi)]
  refine ⟨?_, hsucc, ?_⟩
  · intro hmem
    unfold create_photo_strip
    rw [if_neg]
    intro hall
    have := (List.all_eq_true.mp hall) none hmem
    simp at this
  · intro hall
    rw [hsucc hall]
    simp [length_filterMap_id images hall]

/-- C7 witness: the amended theorem applied to a list with one
undecodable image and to a list of four decodable ones. -/
theorem compositor_failure_semantics_witness :
    create_photo_strip [some (Img.mk 400 600), none, some (Img.mk 400 600),
        some (Img.mk 400 600)] "d" "f.png" = (none, []) ∧
    (create_photo_strip (List.replicate 4 (some (Img.mk 400 600))) "d" "f.png").1
        = some "d/f.png" ∧
    ((create_photo_strip (List.replicate 4 (some (Img.mk 400 600))) "d" "f.png").2.map
        fun p => p.2.pastes.length) = [4] := by
  refine ⟨?_, ?_, ?_⟩
  · exact (compositor_failure_semantics _ "d" "f.png").1 (by decide)
  · rw [(compositor_failure_semantics
      (List.replicate 4 (some (Img.mk 400 600))) "d" "f.png").2.1 (by decide)]
    rfl
  · rw [(compositor_failure_semantics
      (List.replicate 4 (some (Img.mk 400 600))) "d" "f.png").2.2 (by decide)]
    rfl

/-- C3 counterexample: for a 400×600 input (taller than the 800×600
slot aspect), the pasted photo is resampled from the full source box
`(0, 0, 400, 600)` — no center-crop to the slot aspect ratio happens
(the spec-modelled crop box would be `(0, 150, 400, 450)`), so the
image is stretched rather than cropped before resampling. -/
theorem C3_counterexample :
    ((create_photo_strip (List.replicate 4 (some (Img.mk 400 600))) "d" "f.png").2.map
        fun p => p.2.pastes.map fun q => (q.box_l, q.box_t, q.box_r, q.box_b)) =
      [List.replicate 4 ((0 : ℚ), (0 : ℚ), (400 : ℚ), (600 : ℚ))] ∧
    spec_center_crop_box (Img.mk 400 600) = ((0 : ℚ), (150 : ℚ), (400 : ℚ), (450 : ℚ)) ∧
    (((0 : ℚ), (0 : ℚ), (400 : ℚ), (600 : ℚ)) : ℚ × ℚ × ℚ × ℚ) ≠
      ((0 : ℚ), (150 : ℚ), (400 : ℚ), (450 : ℚ)) := by
  refine ⟨?_, ?_, by norm_num⟩
  · norm_num [create_photo_strip, paste_photo, List.replicate, List.enum,
      List.enumFrom, List.filterMap]
  · norm_num [spec_center_crop_box, PHOTO_WIDTH, PHOTO_HEIGHT]

/-- C3 (amended): the compositor never crops: every pasted photo is
resampled from the entire source image (box `(0, 0, w, h)`) directly
to the configured `800 × 600` slot size — distorting the aspect ratio
whenever the input aspect differs from the slot's — and is pasted at
`(BORDER_SIZE, BORDER_SIZE + idx * (PHOTO_HEIGHT + BORDER_SIZE))`;
the pasted dimensions always equal the configured slot size. -/
theorem compositor_resizes_full_image (img : Img) (idx : ℕ) (images : List Img)
    (dir fn : String) :
    (paste_photo idx img).pw = PHOTO_WIDTH ∧
    (paste_photo idx img).ph = PHOTO_HEIGHT ∧
    (paste_photo idx img).box_l = 0 ∧
    (paste_photo idx img).box_t = 0 ∧
    (paste_photo idx img).box_r = (img.w : ℚ) ∧
    (paste_photo idx img).box_b = (img.h : ℚ) ∧
    (paste_photo idx img).x = BORDER_SIZE ∧
    (paste_photo idx img).y = BORDER_SIZE + idx * (PHOTO_HEIGHT + BORDER_SIZE) ∧
    (create_photo_strip (images.map some) dir fn).2.map (fun p => p.2.pastes) =
      [(images.enum.map fun p => paste_photo p.1 p.2)] := by
  refine ⟨rfl, rfl, rfl, rfl, rfl, rfl, rfl, rfl, ?_⟩
  unfold create_photo_strip
  rw [if_pos]
  · simp
  · simp [List.all_eq_true]

/-- C8: any hand satisfying both the Fist and the ThumbsUp predicate
classifies as Fist because the fist test comes first in the decision
chain.  The theorem also records the two stronger facts that make
this non-vacuous: any hand satisfying the Fist predicate alone
classifies as Fist, and no hand can satisfy both predicates at once —
`is_fist` requires `thumb_ratio_to_index < 0.7` while the ThumbsUp
predicate requires `thumb_extended`, i.e. the same ratio `> 0.7`. -/
theorem fist_priority (h : Hand) :
    (is_fist h ∧ is_thumbs_up h → detect_gesture h = some Gesture.fist) ∧
    (is_fist h → detect_gesture h = some Gesture.fist) ∧
    ¬(is_fist h ∧ is_thumbs_up h) := by
  have hfist : is_fist h → detect_gesture h = some Gesture.fist := by
    intro hf
    unfold detect_gesture
    rw [if_pos hf]
  refine ⟨fun hc => hfist hc.1, hfist, ?_⟩
  rintro ⟨hf, ht⟩
  have h1 := hf.2.2.2.2
  have h2 := ht.1
  unfold thumb_extended at h2
  unfold ratio_lt at h1
  unfold ratio_gt at h2
  by_cases hq : 0 < hand_size_sq h
  · rw [if_pos hq] at h1 h2
    linarith
  · rw [if_neg hq] at h1 h2
    norm_num at h2

/-- A concrete fist hand: all fingertips coincide with their
knuckles and the thumb tip sits on the index knuckle. -/
def c8hand : Hand :=
  { wrist := ⟨0, 0, 0⟩
    thumb_tip := ⟨1, 1, 0⟩
    thumb_ip := ⟨1, 1, 0⟩
    thumb_mcp := ⟨1, 1, 0⟩
    thumb_cmc := ⟨0, 0, 0⟩
    index_tip := ⟨1, 1, 0⟩
    index_pip := ⟨1, 1, 0⟩
    index_mcp := ⟨1, 1, 0⟩
    middle_tip := ⟨0, 1, 0⟩
    middle_pip := ⟨0, 1, 0⟩
    middle_mcp := ⟨0, 1, 0⟩
    ring_tip := ⟨2, 1, 0⟩
    ring_pip := ⟨2, 1, 0⟩
    ring_mcp := ⟨2, 1, 0⟩
    pinky_tip := ⟨3, 1, 0⟩
    pinky_pip := ⟨3, 1, 0⟩
    pinky_mcp := ⟨3, 1, 0⟩ }

/-- C8 witness: the priority theorem applied to the concrete fist
hand. -/
theorem fist_priority_witness : detect_gesture c8hand = some Gesture.fist := by
  apply (fist_priority c8hand).2.1
  norm_num [is_fist, index_extended, middle_extended, ring_extended, pinky_extended,
    ratio_gt, ratio_lt, dist_sq, hand_size_sq, thumb_to_index_sq, c8hand]

/-- C9: when the wrist coincides with the middle-finger MCP the
reference `hand_size` is zero, every normalized ratio is treated as
`0`, hence no finger (and not the thumb) counts as extended, the fist
predicate holds (`0 < 0.7`), and the classifier returns the Fist
label rather than no label. -/
theorem degenerate_hand_is_fist (h : Hand) (hdeg : h.wrist = h.middle_mcp) :
    hand_size_sq h = 0 ∧ ¬index_extended h ∧ ¬middle_extended h ∧ ¬ring_extended h ∧
      ¬pinky_extended h ∧ ¬thumb_extended h ∧ is_fist h ∧
      detect_gesture h = some Gesture.fist := by
  have hs : hand_size_sq h = 0 := by
    unfold hand_size_sq
    rw [hdeg]
    unfold dist_sq
    ring
  have hngt : ∀ dsq t : ℚ, 0 ≤ t → ¬ ratio_gt dsq (hand_size_sq h) t := by
    intro dsq t htnn
    unfold ratio_gt
    rw [hs, if_neg (by norm_num)]
    exact not_lt.mpr htnn
  have hi : ¬index_extended h := fun hc => hngt _ _ (by norm_num) hc.2
  have hm : ¬middle_extended h := fun hc => hngt _ _ (by norm_num) hc.2
  have hr : ¬ring_extended h := fun hc => hngt _ _ (by norm_num) hc.2
  have hp : ¬pinky_extended h := fun hc => hngt _ _ (by norm_num) hc.2
  have hth : ¬thumb_extended h := fun hc => hngt _ _ (by norm_num) hc
  have hlt : ratio_lt (thumb_to_index_sq h) (hand_size_sq h) 0.7 := by
    unfold ratio_lt
    rw [hs, if_neg (by norm_num)]
    norm_num
  have hfist : is_fist h := ⟨hi, hm, hr, hp, hlt⟩
  have hdet : detect_gesture h = some Gesture.fist := by
    unfold detect_gesture
    rw [if_pos hfist]
  exact ⟨hs, hi, hm, hr, hp, hth, hfist, hdet⟩

/-- The fully degenerate hand: all 21 landmarks at the origin. -/
def degHand : Hand :=
  { wrist := ⟨0, 0, 0⟩
    thumb_tip := ⟨0, 0, 0⟩
    thumb_ip := ⟨0, 0, 0⟩
    thumb_mcp := ⟨0, 0, 0⟩
    thumb_cmc := ⟨0, 0, 0⟩
    index_tip := ⟨0, 0, 0⟩
    index_pip := ⟨0, 0, 0⟩
    index_mcp := ⟨0, 0, 0⟩
    middle_tip := ⟨0, 0, 0⟩
    middle_pip := ⟨0, 0, 0⟩
    middle_mcp := ⟨0, 0, 0⟩
    ring_tip := ⟨0, 0, 0⟩
    ring_pip := ⟨0, 0, 0⟩
    ring_mcp := ⟨0, 0, 0⟩
    pinky_tip := ⟨0, 0, 0⟩
    pinky_pip := ⟨0, 0, 0⟩
    pinky_mcp := ⟨0, 0, 0⟩ }

/-- C9 witness: the degenerate-hand theorem applied to the all-zero
hand. -/
theorem degenerate_hand_is_fist_witness :
    detect_gesture degHand = some Gesture.fist :=
  (degenerate_hand_is_fist degHand rfl).2.2.2.2.2.2.2

/-- Helper: a finger count of 4 means all four non-thumb fingers are
extended. -/
lemma finger_count_four (h : Hand) (hfc : finger_count h = 4) :
    index_extended h ∧ middle_extended h ∧ ring_extended h ∧ pinky_extended h := by
  unfold finger_count at hfc
  split_ifs at hfc <;> simp_all

/-- C10: the lenient open-palm fallback branch is dead code — its
guard `thumb_ratio_to_index > 0.7` is the definition of
`thumb_extended`, which the preceding branch already tested — so the
classifier is extensionally equal to the chain without the fallback;
consequently a hand with all four non-thumb fingers extended
classifies as OpenPalm exactly when `thumb_ratio_to_index > 0.7` and
as FourFingers otherwise. -/
theorem open_palm_fallback_unreachable (h : Hand) :
    detect_gesture h = detect_gesture_no_fallback h ∧
    (finger_count h = 4 →
        (detect_gesture h = some Gesture.openPalm ↔ thumb_extended h) ∧
        (¬thumb_extended h → detect_gesture h = some Gesture.fourFingers)) := by
  by_cases hfc : finger_count h = 4
  · obtain ⟨hi, hm, hr, hp⟩ := finger_count_four h hfc
    have hnf : ¬is_fist h := fun hc => hc.1 hi
    have hnt : ¬is_thumbs_up h := fun hc => hc.2.2.1 hi
    have hn1 : ¬(index_extended h ∧ ¬middle_extended h ∧ ¬ring_extended h ∧
        ¬pinky_extended h) := fun hc => hc.2.1 hm
    have hn2 : ¬(index_extended h ∧ middle_extended h ∧ ¬ring_extended h ∧
        ¬pinky_extended h) := fun hc => hc.2.2.1 hr
    have hn3 : ¬(index_extended h ∧ middle_extended h ∧ ring_extended h ∧
        ¬pinky_extended h) := fun hc => hc.2.2.2 hp
    by_cases hth : thumb_extended h
    · have e1 : detect_gesture h = some Gesture.openPalm := by
        unfold detect_gesture
        rw [if_neg hnf, if_neg hnt, if_neg hn1, if_neg hn2, if_neg hn3,
          if_neg (fun hc => hc.2 hth), if_pos ⟨hfc, hth⟩]
      have e2 : detect_gesture_no_fallback h = some Gesture.openPalm := by
        unfold detect_gesture_no_fallback
        rw [if_neg hnf, if_neg hnt, if_neg hn1, if_neg hn2, if_neg hn3,
          if_neg (fun hc => hc.2 hth), if_pos ⟨hfc, hth⟩]
      refine ⟨e1.trans e2.symm, fun _ => ⟨?_, fun hc => absurd hth hc⟩⟩
      rw [e1]
      simp [hth]
    · have e1 : detect_gesture h = some Gesture.fourFingers := by
        unfold detect_gesture
        rw [if_neg hnf, if_neg hnt, if_neg hn1, if_neg hn2, if_neg hn3, if_pos ⟨hfc, hth⟩]
      have e2 : detect_gesture_no_fallback h = some Gesture.fourFingers := by
        unfold detect_gesture_no_fallback
        rw [if_neg hnf, if_neg hnt, if_neg hn1, if_neg hn2, if_neg hn3, if_pos ⟨hfc, hth⟩]
      refine ⟨e1.trans e2.symm, fun _ => ⟨?_, fun _ => e1⟩⟩
      rw [e1]
      simp [hth]
  · constructor
    · simp [detect_gesture, detect_gesture_no_fallback, hfc]
    · intro hc
      exact absurd hc hfc

/-- A concrete hand with all four non-thumb fingers extended and the
thumb tucked onto the index knuckle. -/
def c10hand : Hand :=
  { wrist := ⟨0, 0, 0⟩
    thumb_tip := ⟨1, 1, 0⟩
    thumb_ip := ⟨1, 1, 0⟩
    thumb_mcp := ⟨1, 1, 0⟩
    thumb_cmc := ⟨0, 0, 0⟩
    index_tip := ⟨1, 0, 0⟩
    index_pip := ⟨1, 1, 0⟩
    index_mcp := ⟨1, 1, 0⟩
    middle_tip := ⟨0, 0, 0⟩
    middle_pip := ⟨0, 1, 0⟩
    middle_mcp := ⟨0, 1, 0⟩
    ring_tip := ⟨2, 0, 0⟩
    ring_pip := ⟨2, 1, 0⟩
    ring_mcp := ⟨2, 1, 0⟩
    pinky_tip := ⟨3, 0, 0⟩
    pinky_pip := ⟨3, 1, 0⟩
    pinky_mcp := ⟨3, 1, 0⟩ }

/-- C10 witness: the dead-branch theorem applied to the concrete
four-fingers hand. -/
theorem open_palm_fallback_unreachable_witness :
    detect_gesture c10hand = some Gesture.fourFingers := by
  refine ((open_palm_fallback_unreachable c10hand).2 ?_).2 ?_
  · norm_num [finger_count, index_extended, middle_extended, ring_extended,
      pinky_extended, ratio_gt, dist_sq, hand_size_sq, c10hand]
  · norm_num [thumb_extended, ratio_gt, thumb_to_index_sq, dist_sq, hand_size_sq, c10hand]

end VisionBooth
